import Mathlib

namespace Actime

/-- Usage session, as in core.Session and storage.Session (the fields the
verified claims use; timestamps are unix seconds, durations are seconds). -/
structure Session where
  appName : String
  windowTitle : String
  startTime : Nat
  endTime : Nat
  durationSeconds : Nat
  deriving DecidableEq

/-- Foreground window sample, as in platform.WindowInfo (PID unused here). -/
structure WindowInfo where
  appName : String
  windowTitle : String
  deriving DecidableEq

/-- Activity timer, as in core.Timer. -/
structure Timer where
  activityWindow : Nat
  lastActive : Nat
  isActive : Bool
  deriving DecidableEq

/-- Source Timer.Update: active exactly when the reported idle time is
strictly below the activity window; lastActive is refreshed only on the
active branch. -/
def Timer.update (t : Timer) (now idleTime : Nat) : Timer :=
  if idleTime < t.activityWindow then
    { t with lastActive := now, isActive := true }
  else
    { t with isActive := false }

/-- Source Tracker.updateSession: with no open session, open one with
start = end = now and zero duration (the opening tick itself adds no
duration); when the window changed, the old session gets end = now but is
only logged and dropped, and a fresh session opens; otherwise extend:
end = now and duration + 1. -/
def updateSession (sess : Option Session) (w : WindowInfo) (now : Nat) :
    Option Session :=
  match sess with
  | none =>
      some { appName := w.appName, windowTitle := w.windowTitle,
             startTime := now, endTime := now, durationSeconds := 0 }
  | some s =>
      if s.appName ≠ w.appName ∨ s.windowTitle ≠ w.windowTitle then
        some { appName := w.appName, windowTitle := w.windowTitle,
               startTime := now, endTime := now, durationSeconds := 0 }
      else
        some { s with endTime := now, durationSeconds := s.durationSeconds + 1 }

/-- Source Tracker.pauseSession: the open session (if any) gets end = now,
is logged, and is dropped. First component: the retained tracker session
(always none afterwards when one was open); second component: the finalized
value that the source merely logs and never hands to the buffering path. -/
def pauseSession (sess : Option Session) (now : Nat) :
    Option Session × Option Session :=
  match sess with
  | none => (none, none)
  | some s => (none, some { s with endTime := now })

/-- Tracker state relevant to one tick: the timer and the open session. -/
structure TrackerState where
  timer : Timer
  session : Option Session
  deriving DecidableEq

/-- Source Tracker.tick. Probe results are passed in as Option values, with
none standing for a probe error, on which the source logs and returns early.
Order as in the source: lock probe, idle probe, Timer.Update, activity
check (pause when idle), window probe, updateSession. -/
def tick (st : TrackerState) (now : Nat) (lockR : Option Bool)
    (idleR : Option Nat) (winR : Option WindowInfo) : TrackerState :=
  match lockR with
  | none => st
  | some locked =>
    if locked then
      { st with session := (pauseSession st.session now).1 }
    else
      match idleR with
      | none => st
      | some idleTime =>
        let timer := st.timer.update now idleTime
        if timer.isActive then
          match winR with
          | none => { st with timer := timer }
          | some w => { timer := timer, session := updateSession st.session w now }
        else
          { timer := timer, session := (pauseSession st.session now).1 }

/-- Source Tracker.Stop, session part: the open session gets end = now and
is logged, then the tracker session is cleared; nothing is emitted to the
buffering path. Same shape as pauseSession. -/
def trackerStop (sess : Option Session) (now : Nat) :
    Option Session × Option Session :=
  pauseSession sess now

/-- Source Service.bufferSession: replace the first buffered entry having
the same app name and window title whose end equals the incoming start;
otherwise append the incoming session at the end. -/
def bufferSession (buf : List Session) (s : Session) : List Session :=
  match buf with
  | [] => [s]
  | b :: rest =>
    if b.appName = s.appName ∧ b.windowTitle = s.windowTitle
        ∧ b.endTime = s.startTime then
      s :: rest
    else
      b :: bufferSession rest s

/-- Calendar date of a unix-seconds timestamp, modelling
StartTime.Format with layout 2006-01-02 as a day number in a fixed zone. -/
def dateOf (t : Nat) : Nat := t / 86400

/-- One daily_stats upsert, modelling INSERT ... ON CONFLICT(app_name, date)
DO UPDATE SET total_seconds = total_seconds + added. The table is an
association list keyed by (app_name, date), unique per key by schema. -/
def upsertDaily (stats : List ((String × Nat) × Nat)) (app : String)
    (date : Nat) (secs : Nat) : List ((String × Nat) × Nat) :=
  match stats with
  | [] => [((app, date), secs)]
  | ((a, d), tot) :: rest =>
    if a = app ∧ d = date then
      ((a, d), tot + secs) :: rest
    else
      ((a, d), tot) :: upsertDaily rest app date secs

/-- Source DB.UpdateDailyStatsBatch loop body: one additive upsert per
session, keyed by (app_name, date of start_time), adding the duration. -/
def updateDailyStatsBatch (stats : List ((String × Nat) × Nat))
    (sessions : List Session) : List ((String × Nat) × Nat) :=
  sessions.foldl
    (fun st s => upsertDaily st s.appName (dateOf s.startTime) s.durationSeconds)
    stats

/-- One INSERT OR REPLACE INTO sessions on the UNIQUE
(app_name, window_title, start_time) key: replace the matching row if
present, else append. -/
def upsertSessionRow (tbl : List Session) (s : Session) : List Session :=
  match tbl with
  | [] => [s]
  | r :: rest =>
    if r.appName = s.appName ∧ r.windowTitle = s.windowTitle
        ∧ r.startTime = s.startTime then
      s :: rest
    else
      r :: upsertSessionRow rest s

/-- Source DB.BatchInsertSessions loop body: one keyed replace per session. -/
def batchInsertSessions (tbl : List Session) (sessions : List Session) :
    List Session :=
  sessions.foldl upsertSessionRow tbl

/-- Durable store: the sessions table and the daily_stats table. -/
structure DBState where
  sessions : List Session
  dailyStats : List ((String × Nat) × Nat)
  deriving DecidableEq

/-- Source DB.BatchInsertSessions as one transaction: all rows or none.
The fail flag injects a statement or commit failure, on which the whole
transaction rolls back (none). -/
def batchInsertSessionsTx (db : DBState) (batch : List Session) (fail : Bool) :
    Option DBState :=
  if fail then none
  else some { db with sessions := batchInsertSessions db.sessions batch }

/-- Source DB.UpdateDailyStatsBatch as one transaction: all upserts or none. -/
def updateDailyStatsBatchTx (db : DBState) (batch : List Session) (fail : Bool) :
    Option DBState :=
  if fail then none
  else some { db with dailyStats := updateDailyStatsBatch db.dailyStats batch }

/-- Source Service.flushSessions: the buffer is copied and cleared under the
lock before any write; an empty batch returns success at once; then the two
batch writes run as two separate transactions, each error returned as
failure. Result: (buffer afterwards, database afterwards, success flag). -/
def flushSessions (db : DBState) (buffer : List Session)
    (failInsert failDaily : Bool) : List Session × DBState × Bool :=
  let batch := buffer
  if batch.isEmpty then ([], db, true)
  else
    match batchInsertSessionsTx db batch failInsert with
    | none => ([], db, false)
    | some db1 =>
      match updateDailyStatsBatchTx db1 batch failDaily with
      | none => ([], db1, false)
      | some db2 => ([], db2, true)

/-- Lifecycle errors returned by Service.Start and Service.Stop. -/
inductive ServiceErr where
  | alreadyRunning
  | notRunning
  | pidLockFailed
  | trackerStartFailed
  deriving DecidableEq

/-- Service state relevant to the lifecycle and flush claims. -/
structure ServiceState where
  running : Bool
  sessionBuffer : List Session
  db : DBState
  trackerSession : Option Session
  deriving DecidableEq

/-- Source Service.Start entry path: explicit error when already running,
else the PID lock and the tracker start may fail, else the loops start and
running becomes true. -/
def serviceStart (s : ServiceState) (pidOk trackerOk : Bool) :
    Except ServiceErr ServiceState :=
  if s.running then .error .alreadyRunning
  else if !pidOk then .error .pidLockFailed
  else if !trackerOk then .error .trackerStartFailed
  else .ok { s with running := true }

/-- Source Service.Stop: explicit error when not running; else the tracker
is stopped (open session finalized and dropped, nothing buffered), then the
buffer is drained and flushed, write failures being only logged. -/
def serviceStop (s : ServiceState) (now : Nat) (failInsert failDaily : Bool) :
    Except ServiceErr ServiceState :=
  if !s.running then .error .notRunning
  else
    let tracked := (trackerStop s.trackerSession now).1
    let flushed := flushSessions s.db s.sessionBuffer failInsert failDaily
    .ok { running := false, sessionBuffer := flushed.1, db := flushed.2.1,
          trackerSession := tracked }

/-- Pointer-level tracker for GetCurrentSession: the heap is a list of
session cells addressed by index, and the tracker holds an optional cell
address for its current session. -/
structure TrackerH where
  sessionAddr : Option Nat
  deriving DecidableEq

/-- Source Tracker.GetCurrentSession: under the read lock, return nil when
no session is open; otherwise copy the pointee into a fresh cell and return
the fresh address. Components: the tracker afterwards (unchanged, the
source takes only the read lock and writes nothing), the returned pointer,
and the heap afterwards. The inner none branch is unreachable for a valid
address. -/
def getCurrentSession (t : TrackerH) (heap : List Session) :
    TrackerH × Option Nat × List Session :=
  match t.sessionAddr with
  | none => (t, none, heap)
  | some a =>
    match heap[a]? with
    | none => (t, none, heap)
    | some s => (t, some heap.length, heap ++ [s])

/-- Run of n consecutive ticks that are active, unlocked, and report the
same window, at one-second cadence starting at t0, applied to an initially
absent session: the path tick takes on each such tick is updateSession. -/
def runTicks (w : WindowInfo) (t0 : Nat) : Nat → Option Session
  | 0 => none
  | n + 1 => updateSession (runTicks w t0 n) w (t0 + n)

/-- Recorded daily total for (app, date), zero when the row is absent. -/
def totalFor (stats : List ((String × Nat) × Nat)) (app : String)
    (date : Nat) : Nat :=
  match stats with
  | [] => 0
  | ((a, d), tot) :: rest =>
    if a = app ∧ d = date then tot else totalFor rest app date

/-- Sum of the durations of the sessions in a list for application app
whose start timestamp falls on the given date. -/
def dateContribution (l : List Session) (app : String) (date : Nat) : Nat :=
  match l with
  | [] => 0
  | s :: rest =>
    (if s.appName = app ∧ dateOf s.startTime = date then s.durationSeconds
     else 0) + dateContribution rest app date

/-- Sample application name used by concrete witnesses. -/
def editorApp : String := "Editor"

/-- Sample window title used by concrete witnesses. -/
def docTitle : String := "doc"

/-- C4: the verdict after Timer.Update is active exactly when the idle
duration is strictly below the activity window, and at the boundary (idle
duration equal to the window) the verdict is idle. -/
theorem timer_update_boundary (t : Timer) (now d : Nat) :
    (t.update now d).isActive = decide (d < t.activityWindow)
      ∧ (t.update now t.activityWindow).isActive = false := by
  constructor
  · unfold Timer.update
    split <;> simp_all
  · unfold Timer.update
    simp

/-- C1 counterexample: two bufferSession calls with the same (app, title)
but non-contiguous timestamps — buffered end 5, incoming start 0, exactly
what two successive polls of one open session produce — leave two pending
entries for a single (app, title) pair, refuting the at-most-one-entry-
per-pair invariant and the distinct-pair size bound. -/
theorem bufferSession_pair_duplicate_cex :
    bufferSession
        (bufferSession [] ⟨editorApp, docTitle, 0, 5, 5⟩)
        ⟨editorApp, docTitle, 0, 6, 6⟩
      = [⟨editorApp, docTitle, 0, 5, 5⟩, ⟨editorApp, docTitle, 0, 6, 6⟩] := by
  decide

/-- C1 (amended): bufferSession coalesces only contiguous repeats: buffering
a session and then a second one with the same app name and window title
whose start equals the first one's end leaves exactly the later entry; a
non-contiguous repeat of the pair is appended instead, so the buffer is not
bounded by the number of distinct pairs in general. -/
theorem bufferSession_contiguous_merge (s1 s2 : Session)
    (happ : s1.appName = s2.appName) (htitle : s1.windowTitle = s2.windowTitle)
    (hend : s1.endTime = s2.startTime) :
    bufferSession (bufferSession [] s1) s2 = [s2] := by
  simp [bufferSession, happ, htitle, hend]

/-- Witness for the amended C1 theorem at concrete contiguous sessions. -/
theorem bufferSession_contiguous_merge_witness :
    bufferSession
        (bufferSession [] ⟨editorApp, docTitle, 0, 5, 5⟩)
        ⟨editorApp, docTitle, 5, 6, 6⟩
      = [⟨editorApp, docTitle, 5, 6, 6⟩] :=
  bufferSession_contiguous_merge ⟨editorApp, docTitle, 0, 5, 5⟩
    ⟨editorApp, docTitle, 5, 6, 6⟩ rfl rfl rfl

/-- C3 counterexample: two consecutive active, unlocked, same-window ticks
at one-second cadence leave a session of duration 1, not 2: the tick that
opens the session (start = end = now, duration 0) is not treated as an
extension, so duration after n ticks is not n times the tick interval. -/
theorem runTicks_first_tick_cex :
    (runTicks ⟨editorApp, docTitle⟩ 0 2).map Session.durationSeconds = some 1
      ∧ (runTicks ⟨editorApp, docTitle⟩ 0 2).map Session.durationSeconds ≠ some 2 := by
  decide

/-- C3 (amended): after n ≥ 1 consecutive active, unlocked, same-window
ticks at one-second cadence starting at t0, the session is open with
start t0, end t0 + (n − 1), and duration n − 1 seconds: the opening tick
contributes nothing, each later tick adds one second, and end − start
equals the accumulated duration. -/
theorem runTicks_duration (w : WindowInfo) (t0 : Nat) :
    ∀ n : Nat, 1 ≤ n →
      runTicks w t0 n
        = some ⟨w.appName, w.windowTitle, t0, t0 + (n - 1), n - 1⟩ := by
  intro n
  induction n with
  | zero => intro h; omega
  | succ m ih =>
    intro _
    match m, ih with
    | 0, _ =>
      simp [runTicks, updateSession]
    | Nat.succ k, ih =>
      rw [runTicks, ih (by omega)]
      simp only [updateSession, ne_eq, not_true_eq_false, false_or, if_neg,
        not_false_eq_true]
      simp

/-- Witness for the amended C3 theorem: three ticks give duration 2. -/
theorem runTicks_duration_witness :
    runTicks ⟨editorApp, docTitle⟩ 0 3 = some ⟨editorApp, docTitle, 0, 2, 2⟩ :=
  runTicks_duration ⟨editorApp, docTitle⟩ 0 3 (by decide)

/-- Helper: dateContribution is additive over list concatenation. -/
theorem dateContribution_append (l1 l2 : List Session) (app : String)
    (date : Nat) :
    dateContribution (l1 ++ l2) app date
      = dateContribution l1 app date + dateContribution l2 app date := by
  induction l1 with
  | nil => simp [dateContribution]
  | cons s rest ih =>
    have h1 : dateContribution ((s :: rest) ++ l2) app date
        = (if s.appName = app ∧ dateOf s.startTime = date
           then s.durationSeconds else 0)
          + dateContribution (rest ++ l2) app date := rfl
    have h2 : dateContribution (s :: rest) app date
        = (if s.appName = app ∧ dateOf s.startTime = date
           then s.durationSeconds else 0)
          + dateContribution rest app date := rfl
    rw [h1, h2, ih]
    omega

/-- Helper: one additive daily upsert adds its seconds to exactly the
matching (app, date) total and leaves every other total unchanged. -/
theorem totalFor_upsertDaily (stats : List ((String × Nat) × Nat))
    (a app : String) (d date : Nat) (n : Nat) :
    totalFor (upsertDaily stats a d n) app date
      = totalFor stats app date + (if a = app ∧ d = date then n else 0) := by
  induction stats with
  | nil =>
    simp only [upsertDaily, totalFor]
    split <;> simp [totalFor]
  | cons p rest ih =>
    obtain ⟨⟨b, e⟩, tot⟩ := p
    simp only [upsertDaily]
    split
    · next hbe =>
      obtain ⟨hb, he⟩ := hbe
      subst hb; subst he
      simp only [totalFor]
      split <;> simp_all
    · next hbe =>
      simp only [totalFor]
      split
      · next hmatch =>
        obtain ⟨hb, he⟩ := hmatch
        subst hb; subst he
        split
        · next hx => exact absurd ⟨hx.1.symm, hx.2.symm⟩ hbe
        · omega
      · exact ih

/-- Helper: one UpdateDailyStatsBatch call adds, to each (app, date) total,
the summed durations of the sessions of the batch for that app and date. -/
theorem totalFor_updateDailyStatsBatch (l : List Session)
    (stats : List ((String × Nat) × Nat)) (app : String) (date : Nat) :
    totalFor (updateDailyStatsBatch stats l) app date
      = totalFor stats app date + dateContribution l app date := by
  induction l generalizing stats with
  | nil => simp [updateDailyStatsBatch, dateContribution]
  | cons s rest ih =>
    simp only [updateDailyStatsBatch, List.foldl_cons] at ih ⊢
    rw [ih, totalFor_upsertDaily]
    simp only [dateContribution]
    omega

/-- C2 (amended): daily totals record the flushed contributions additively:
after any sequence of UpdateDailyStatsBatch calls, the total for each
(application, date) equals its initial value plus the summed durations of
all flushed session instances for that application and date, and it depends
only on the concatenation of the batches — flushing two sessions in one
call or in two sequential calls converges to the same total. It equals the
per-date sum over the stored sessions table only when no
(app, title, start) key is flushed more than once. -/
theorem updateDailyStatsBatch_additive (stats : List ((String × Nat) × Nat))
    (batches : List (List Session)) (app : String) (date : Nat) :
    totalFor (batches.foldl updateDailyStatsBatch stats) app date
      = totalFor stats app date + dateContribution batches.flatten app date := by
  induction batches generalizing stats with
  | nil => simp [dateContribution]
  | cons b bs ih =>
    simp only [List.foldl_cons, List.flatten_cons]
    rw [ih, totalFor_updateDailyStatsBatch, dateContribution_append]
    omega

/-- C2 counterexample: re-flushing the same session — the same
(app, title, start) key, which the idempotent session upsert expects and
collapses to one stored row — doubles the daily total: after flushing a
batch holding one session of duration 10 twice, the stored sessions for
that date sum to 10 while the daily total reads 20, so the total does not
equal the sum of the durations of the sessions whose start falls on the
date. -/
theorem dailyTotal_reflush_cex :
    totalFor
        (updateDailyStatsBatch
          (updateDailyStatsBatch [] [⟨editorApp, docTitle, 100, 160, 10⟩])
          [⟨editorApp, docTitle, 100, 160, 10⟩])
        editorApp 0 = 20
      ∧ dateContribution
          (batchInsertSessions
            (batchInsertSessions [] [⟨editorApp, docTitle, 100, 160, 10⟩])
            [⟨editorApp, docTitle, 100, 160, 10⟩])
          editorApp 0 = 10 := by
  decide

/-- C5 counterexample: with one buffered session, a failure of the
daily-stats transaction after the sessions transaction already committed
leaves the session row persisted with no daily total while the flush
reports failure — observable partial application, refuting the
single-transaction claim. -/
theorem flush_two_transactions_cex :
    flushSessions ⟨[], []⟩ [⟨editorApp, docTitle, 100, 160, 10⟩] false true
      = ([], ⟨[⟨editorApp, docTitle, 100, 160, 10⟩], []⟩, false) := by
  decide

/-- C5 (amended): the two flush writes run as two separate transactions,
each individually atomic: a sessions-transaction failure leaves the
database unchanged, but a daily-stats failure after the sessions
transaction committed leaves the session upserts visible with the daily
totals untouched while the flush reports failure; only a fully successful
flush applies both, and the buffer is cleared in every case. -/
theorem flushSessions_per_op_atomic (db : DBState) (buffer : List Session)
    (hne : buffer ≠ []) :
    flushSessions db buffer true false = ([], db, false)
    ∧ flushSessions db buffer true true = ([], db, false)
    ∧ flushSessions db buffer false true
        = ([], { db with sessions := batchInsertSessions db.sessions buffer },
           false)
    ∧ flushSessions db buffer false false
        = ([], { sessions := batchInsertSessions db.sessions buffer,
                 dailyStats := updateDailyStatsBatch db.dailyStats buffer },
           true) := by
  have h : buffer.isEmpty = false := by
    cases buffer with
    | nil => exact absurd rfl hne
    | cons x xs => rfl
  refine ⟨?_, ?_, ?_, ?_⟩ <;>
    simp [flushSessions, batchInsertSessionsTx, updateDailyStatsBatchTx, h]

/-- Witness for the amended C5 theorem at a one-session buffer. -/
theorem flushSessions_per_op_atomic_witness :
    flushSessions ⟨[], []⟩ [⟨editorApp, docTitle, 100, 160, 10⟩] true false
        = ([], ⟨[], []⟩, false)
    ∧ flushSessions ⟨[], []⟩ [⟨editorApp, docTitle, 100, 160, 10⟩] true true
        = ([], ⟨[], []⟩, false)
    ∧ flushSessions ⟨[], []⟩ [⟨editorApp, docTitle, 100, 160, 10⟩] false true
        = ([], { sessions :=
                   batchInsertSessions [] [⟨editorApp, docTitle, 100, 160, 10⟩],
                 dailyStats := [] }, false)
    ∧ flushSessions ⟨[], []⟩ [⟨editorApp, docTitle, 100, 160, 10⟩] false false
        = ([], { sessions :=
                   batchInsertSessions [] [⟨editorApp, docTitle, 100, 160, 10⟩],
                 dailyStats :=
                   updateDailyStatsBatch [] [⟨editorApp, docTitle, 100, 160, 10⟩] },
           true) :=
  flushSessions_per_op_atomic ⟨[], []⟩ [⟨editorApp, docTitle, 100, 160, 10⟩]
    (by decide)

/-- C6: a failed flush loses the drained batch: the buffer was cleared
before the write, the database is unchanged, and only an error escapes,
which the batch-write loop and Stop merely log — afterwards the batch is
neither in the pending state nor persisted nor surfaced as fatal. -/
theorem flushSessions_drops_batch_on_failure :
    flushSessions ⟨[], []⟩ [⟨editorApp, docTitle, 100, 160, 10⟩] true false
      = ([], ⟨[], []⟩, false) := by
  decide

/-- C7 counterexample: stopping the service with an open session whose last
polled copy (end 5) sits in the buffer, at stop time 7, finalizes the
session to end 7 inside the tracker but discards it; the final flush
persists only the polled copy with end 5, so no persisted row carries the
final end timestamp 7. -/
theorem trackerStop_no_emit_cex :
    serviceStop
        ⟨true, [⟨editorApp, docTitle, 0, 5, 5⟩], ⟨[], []⟩,
         some ⟨editorApp, docTitle, 0, 5, 5⟩⟩ 7 false false
      = .ok ⟨false, [], ⟨[⟨editorApp, docTitle, 0, 5, 5⟩],
             [((editorApp, 0), 5)]⟩, none⟩
    ∧ (trackerStop (some ⟨editorApp, docTitle, 0, 5, 5⟩) 7).2
        = some ⟨editorApp, docTitle, 0, 7, 5⟩ := by
  constructor
  · rfl
  · rfl

/-- C7 (amended): the tracker emits nothing on stop: the open session gets
end = stop time and the value is dropped, the tracker session is cleared,
and the final flush persists exactly what the polling loop had previously
buffered; activity between the last poll and stop is absent from what is
persisted. -/
theorem serviceStop_flushes_buffer_only (s : ServiceState) (now : Nat)
    (hrun : s.running = true) :
    serviceStop s now false false
      = .ok { running := false, sessionBuffer := [],
              db := (flushSessions s.db s.sessionBuffer false false).2.1,
              trackerSession := none }
    ∧ (∀ sess, s.trackerSession = some sess →
        (trackerStop s.trackerSession now).2
          = some { sess with endTime := now }) := by
  constructor
  · have hb : (flushSessions s.db s.sessionBuffer false false).1 = [] := by
      cases hbuf : s.sessionBuffer <;>
        simp [flushSessions, batchInsertSessionsTx, updateDailyStatsBatchTx]
    have ht : (trackerStop s.trackerSession now).1 = none := by
      cases s.trackerSession <;> simp [trackerStop, pauseSession]
    simp [serviceStop, hrun, ht, hb]
  · intro sess hs
    simp [trackerStop, pauseSession, hs]

/-- Witness for the amended C7 theorem at the concrete stop scenario. -/
theorem serviceStop_flushes_buffer_only_witness :
    serviceStop
        ⟨true, [⟨editorApp, docTitle, 0, 5, 5⟩], ⟨[], []⟩,
         some ⟨editorApp, docTitle, 0, 5, 5⟩⟩ 7 false false
      = .ok { running := false, sessionBuffer := [],
              db := (flushSessions ⟨[], []⟩ [⟨editorApp, docTitle, 0, 5, 5⟩]
                      false false).2.1,
              trackerSession := none }
    ∧ (trackerStop (some ⟨editorApp, docTitle, 0, 5, 5⟩) 7).2
        = some ⟨editorApp, docTitle, 0, 7, 5⟩ :=
  ⟨(serviceStop_flushes_buffer_only
      ⟨true, [⟨editorApp, docTitle, 0, 5, 5⟩], ⟨[], []⟩,
       some ⟨editorApp, docTitle, 0, 5, 5⟩⟩ 7 rfl).1,
   (serviceStop_flushes_buffer_only
      ⟨true, [⟨editorApp, docTitle, 0, 5, 5⟩], ⟨[], []⟩,
       some ⟨editorApp, docTitle, 0, 5, 5⟩⟩ 7 rfl).2
     ⟨editorApp, docTitle, 0, 5, 5⟩ rfl⟩

/-- C8: a probe error skips the tick: a lock-probe error or an idle-probe
error leaves the whole tracker state unchanged, and a window-probe error —
reachable only on an active, unlocked tick — leaves the session untouched,
its start, end, and accumulated duration exactly as before the tick. -/
theorem tick_probe_error_skips (st : TrackerState) (now : Nat)
    (idleR : Option Nat) (winR : Option WindowInfo) (idle : Nat)
    (hact : idle < st.timer.activityWindow) :
    tick st now none idleR winR = st
    ∧ tick st now (some false) none winR = st
    ∧ (tick st now (some false) (some idle) none).session = st.session := by
  refine ⟨rfl, rfl, ?_⟩
  simp [tick, Timer.update, hact]

/-- Witness for the C8 theorem at a concrete tracker state. -/
theorem tick_probe_error_skips_witness :
    tick ⟨⟨300, 0, true⟩, some ⟨editorApp, docTitle, 0, 5, 5⟩⟩ 6 none none none
        = ⟨⟨300, 0, true⟩, some ⟨editorApp, docTitle, 0, 5, 5⟩⟩
    ∧ tick ⟨⟨300, 0, true⟩, some ⟨editorApp, docTitle, 0, 5, 5⟩⟩ 6 (some false)
          none none
        = ⟨⟨300, 0, true⟩, some ⟨editorApp, docTitle, 0, 5, 5⟩⟩
    ∧ (tick ⟨⟨300, 0, true⟩, some ⟨editorApp, docTitle, 0, 5, 5⟩⟩ 6 (some false)
          (some 0) none).session
        = (⟨⟨300, 0, true⟩, some ⟨editorApp, docTitle, 0, 5, 5⟩⟩ :
            TrackerState).session :=
  tick_probe_error_skips ⟨⟨300, 0, true⟩, some ⟨editorApp, docTitle, 0, 5, 5⟩⟩
    6 none none 0 (by decide)

/-- C9: lifecycle guards: Start on an already-running instance and Stop on
a non-running instance each return an explicit error synchronously to the
caller, whatever the other inputs. -/
theorem lifecycle_guard_errors (s1 s2 : ServiceState) (pidOk trackerOk : Bool)
    (now : Nat) (failInsert failDaily : Bool)
    (h1 : s1.running = true) (h2 : s2.running = false) :
    serviceStart s1 pidOk trackerOk = .error .alreadyRunning
    ∧ serviceStop s2 now failInsert failDaily = .error .notRunning := by
  constructor
  · simp [serviceStart, h1]
  · simp [serviceStop, h2]

/-- Witness for the C9 theorem at concrete service states. -/
theorem lifecycle_guard_errors_witness :
    serviceStart ⟨true, [], ⟨[], []⟩, none⟩ true true
        = .error .alreadyRunning
    ∧ serviceStop ⟨false, [], ⟨[], []⟩, none⟩ 0 false false
        = .error .notRunning :=
  lifecycle_guard_errors ⟨true, [], ⟨[], []⟩, none⟩ ⟨false, [], ⟨[], []⟩, none⟩
    true true 0 false false rfl rfl

/-- C10: GetCurrentSession leaves the tracker unchanged, returns nil
exactly when no session is open, and otherwise returns a pointer to a
fresh copy of the session: the returned address differs from the tracker
cell, the tracker cell keeps its value, writing through the returned
address leaves the tracker cell unchanged, and the fresh cell holds the
same session value. -/
theorem getCurrentSession_copy (t : TrackerH) (heap : List Session) :
    (getCurrentSession t heap).1 = t
    ∧ (t.sessionAddr = none → getCurrentSession t heap = (t, none, heap))
    ∧ (∀ a, t.sessionAddr = some a → a < heap.length →
        (getCurrentSession t heap).2.1 = some heap.length
        ∧ heap.length ≠ a
        ∧ ((getCurrentSession t heap).2.2)[a]? = heap[a]?
        ∧ (∀ v, (((getCurrentSession t heap).2.2).set heap.length v)[a]?
              = heap[a]?)
        ∧ ((getCurrentSession t heap).2.2)[heap.length]? = heap[a]?) := by
  refine ⟨?_, ?_, ?_⟩
  · unfold getCurrentSession
    rcases t with ⟨addr⟩
    cases addr with
    | none => rfl
    | some a => cases h : heap[a]? <;> simp [h]
  · intro hnone
    unfold getCurrentSession
    rw [hnone]
  · intro a ha hlt
    have hget : heap[a]? = some (heap.get ⟨a, hlt⟩) := by
      simp [List.getElem?_eq_getElem hlt]
    have hgcs : getCurrentSession t heap
        = (t, some heap.length, heap ++ [heap.get ⟨a, hlt⟩]) := by
      unfold getCurrentSession
      simp [ha, hget]
    rw [hgcs]
    refine ⟨rfl, by omega, ?_, ?_, ?_⟩
    · simp [List.getElem?_append_left hlt]
    · intro v
      have hset : ((heap ++ [heap.get ⟨a, hlt⟩]).set heap.length v)[a]?
          = (heap ++ [heap.get ⟨a, hlt⟩])[a]? := by
        apply List.getElem?_set_ne
        omega
      rw [hset]
      simp [List.getElem?_append_left hlt]
    · simp [List.getElem?_concat_length, hget]

/-- Witness for the C10 theorem at a one-cell heap. -/
theorem getCurrentSession_copy_witness :
    (getCurrentSession ⟨some 0⟩ [⟨editorApp, docTitle, 0, 5, 5⟩]).2.1 = some 1
    ∧ ((getCurrentSession ⟨some 0⟩ [⟨editorApp, docTitle, 0, 5, 5⟩]).2.2)[0]?
        = ([⟨editorApp, docTitle, 0, 5, 5⟩] : List Session)[0]? :=
  ⟨((getCurrentSession_copy ⟨some 0⟩ [⟨editorApp, docTitle, 0, 5, 5⟩]).2.2
      0 rfl (by decide)).1,
   ((getCurrentSession_copy ⟨some 0⟩ [⟨editorApp, docTitle, 0, 5, 5⟩]).2.2
      0 rfl (by decide)).2.2.1⟩

end Actime
